import Mathlib

/-!
Verification development for the review-management backend.

The source is shallowly embedded: GORM queries become pure list
operations over an explicit database state, external collaborators
(LLM, Elasticsearch, Redis) become oracle functions recorded in a
`Backend`-style structure, and Go's `(value, error)` returns become
`Except`/product results.  Time is passed explicitly (`now`), since the
source formats `time.Now()` into strings.
-/

deriving instance DecidableEq for Except

namespace ReviewSystem

/-- Review record, after `model.ReviewInfo` (table `review_info`).
Only the columns the verified operations read or write are kept;
`version` is the optimistic-lock column of the schema. -/
structure ReviewInfo where
  reviewID : Int
  orderID : Int
  userID : Int
  storeID : Int
  score : Int
  serviceScore : Int
  expressScore : Int
  content : String
  picInfo : String
  videoInfo : String
  hasReply : Int
  status : Int
  opUser : String
  opReason : String
  opRemarks : String
  updateBy : String
  version : Int
  updateAt : Nat
  deriving Repr, DecidableEq

/-- Reply record, after `model.ReviewReplyInfo` (table `review_reply_info`). -/
structure ReviewReplyInfo where
  replyID : Int
  reviewID : Int
  storeID : Int
  content : String
  picInfo : String
  videoInfo : String
  deriving Repr, DecidableEq

/-- Appeal record, after `model.ReviewAppealInfo` (table `review_appeal_info`). -/
structure ReviewAppealInfo where
  appealID : Int
  reviewID : Int
  storeID : Int
  status : Int
  reason : String
  content : String
  picInfo : String
  videoInfo : String
  opUser : String
  opRemarks : String
  updateBy : String
  version : Int
  deriving Repr, DecidableEq

/-- The relational store visible to `reviewRepo`: the three tables. -/
structure DB where
  reviews : List ReviewInfo
  replies : List ReviewReplyInfo
  appeals : List ReviewAppealInfo
  deriving Repr, DecidableEq

/-- Errors surfaced by the review write path.  `orderReviewed` and
`dbFailed` are the kratos-coded errors of the usecase layer; `goErr`
stands for `errors.New`/`fmt.Errorf` messages of the data layer;
`moderation` carries an LLM-call failure out of `ModerateText`. -/
inductive Err where
  | orderReviewed (msg : String)
  | dbFailed (msg : String)
  | goErr (msg : String)
  | moderation (msg : String)
  deriving Repr, DecidableEq

/-- `WHERE order_id = ?` ... `Find()` over `review_info`. -/
def findByOrder (db : DB) (orderID : Int) : List ReviewInfo :=
  db.reviews.filter (fun r => r.orderID = orderID)

/-- `WHERE review_id = ?` ... `First()` over `review_info`. -/
def findByReviewID (db : DB) (reviewID : Int) : Option ReviewInfo :=
  (db.reviews.filter (fun r => r.reviewID = reviewID)).head?

/-- `WHERE review_id = ?` ... `Updates(...)`: apply the column patch to
every row matching the id (the id is unique by schema). -/
def updateReviewWhere (db : DB) (reviewID : Int) (patch : ReviewInfo → ReviewInfo) : DB :=
  { db with reviews := db.reviews.map (fun r => if r.reviewID = reviewID then patch r else r) }

/-- `reviewRepo.SaveReview`: if a review already exists for the order,
append the new content under a timestamp header and overwrite scores
and media on the existing row, re-read and return it; otherwise insert
the new row.  `now` is `time.Now().Format("2006-01-02 15:04:05")`.
The async `go r.syncAndAudit(...)` task is outside this state
transition (it runs on a fresh context; see `auditReview`). -/
def saveReview (db : DB) (now : String) (review : ReviewInfo) : DB × Except Err ReviewInfo :=
  let existing := findByOrder db review.orderID
  match existing.head? with
  | some existingReview =>
      let appendedContent :=
        existingReview.content ++ "\n\n" ++ "[追加评论 " ++ now ++ "]:\n" ++ review.content
      let db' := updateReviewWhere db existingReview.reviewID (fun r =>
        { r with
          content := appendedContent
          score := review.score
          serviceScore := review.serviceScore
          expressScore := review.expressScore
          picInfo := review.picInfo
          videoInfo := review.videoInfo })
      let reread : Except Err ReviewInfo :=
        match findByReviewID db' existingReview.reviewID with
        | some updatedReview => Except.ok updatedReview
        | none => Except.ok existingReview
      (db', reread)
  | none =>
      ({ db with reviews := db.reviews ++ [review] }, Except.ok review)

/-- `ReviewUsecase.CreateReview`: look up reviews for the order and
reject with the kratos `ORDER_REVIEWED` error when one exists; only
otherwise call the repo's `SaveReview`. -/
def createReview (db : DB) (now : String) (review : ReviewInfo) : DB × Except Err ReviewInfo :=
  let reviews := findByOrder db review.orderID
  if reviews.length > 0 then
    (db, Except.error (Err.orderReviewed
      ("已评价的订单不能重复评价, orderID: " ++ toString review.orderID)))
  else
    saveReview db now review

/-- `WHERE appeal_id = ?` ... `First()` over `review_appeal_info`. -/
def findAppealByID (db : DB) (appealID : Int) : Option ReviewAppealInfo :=
  (db.appeals.filter (fun a => a.appealID = appealID)).head?

/-- `WHERE appeal_id = ?` ... `Updates(...)` over `review_appeal_info`. -/
def updateAppealWhere (db : DB) (appealID : Int)
    (patch : ReviewAppealInfo → ReviewAppealInfo) : DB :=
  { db with appeals := db.appeals.map (fun a => if a.appealID = appealID then patch a else a) }

/-- Parameters of `reviewRepo.AuditAppeal` (`biz.AuditAppealParam`). -/
structure AuditAppealParam where
  appealID : Int
  status : Int
  opUser : String
  opReason : String
  opRemarks : String
  deriving Repr, DecidableEq

/-- `reviewRepo.AuditAppeal`: look up the appeal, require pending state
10, translate the decision (20 ⇒ appeal 20 / review 40, 30 ⇒ appeal 30 /
review 30, otherwise error before any write), then commit the appeal
update and the coupled review update inside one `Transaction` — modelled
as a single atomic state transformation with no observable intermediate
state — and re-read the appeal. -/
def auditAppeal (db : DB) (param : AuditAppealParam) : DB × Except Err ReviewAppealInfo :=
  match findAppealByID db param.appealID with
  | none => (db, Except.error (Err.goErr "无法获取申诉记录"))
  | some appeal =>
    if appeal.status ≠ 10 then
      (db, Except.error (Err.goErr "只有待审核状态的申诉才能进行审核"))
    else if param.status = 20 ∨ param.status = 30 then
      let appealStatus : Int := if param.status = 20 then 20 else 30
      let reviewStatus : Int := if param.status = 20 then 40 else 30
      let db1 := updateAppealWhere db param.appealID (fun a =>
        { a with
          status := appealStatus
          opUser := param.opUser
          reason := param.opReason
          opRemarks := param.opRemarks
          updateBy := param.opUser })
      let db2 := updateReviewWhere db1 appeal.reviewID (fun r =>
        { r with status := reviewStatus, updateBy := param.opUser })
      let reread : Except Err ReviewAppealInfo :=
        match findAppealByID db2 param.appealID with
        | some updatedAppeal => Except.ok updatedAppeal
        | none => Except.error (Err.goErr "查询更新后的申诉记录失败")
      (db2, reread)
    else
      (db, Except.error (Err.goErr "无效的申诉审核状态"))

/-- `ReviewUsecase.AuditAppeal`: the usecase rejects any decision other
than 20 or 30 before reaching the repo. -/
def auditAppealUC (db : DB) (param : AuditAppealParam) : DB × Except Err ReviewAppealInfo :=
  if param.status ≠ 20 ∧ param.status ≠ 30 then
    (db, Except.error (Err.goErr "审核状态无效，只能设置为通过(20)或驳回(30)"))
  else
    auditAppeal db param

/-- Concrete pre-existing review used in counterexamples. -/
def rvExisting : ReviewInfo :=
  { reviewID := 1, orderID := 7, userID := 2, storeID := 3
    score := 5, serviceScore := 5, expressScore := 5
    content := "ok", picInfo := "", videoInfo := ""
    hasReply := 0, status := 20, opUser := "", opReason := "", opRemarks := ""
    updateBy := "", version := 5, updateAt := 0 }

/-- Concrete second submission on the same order. -/
def rvSecond : ReviewInfo :=
  { reviewID := 0, orderID := 7, userID := 2, storeID := 3
    score := 4, serviceScore := 4, expressScore := 4
    content := "add", picInfo := "", videoInfo := ""
    hasReply := 0, status := 10, opUser := "", opReason := "", opRemarks := ""
    updateBy := "", version := 0, updateAt := 0 }

/-- Database holding exactly the one existing review for order 7. -/
def dbOne : DB := { reviews := [rvExisting], replies := [], appeals := [] }

/-- `strings.HasPrefix`, over the character lists of the strings. -/
def goHasPfx (s p : String) : Bool :=
  p.data.isPrefixOf s.data

/-- One `strings.TrimPrefix`: drop the prefix `p` when `s` starts with
it, otherwise return `s` unchanged. -/
def goTrimOnePfx (s p : String) : String :=
  if goHasPfx s p then String.mk (s.data.drop p.data.length) else s

/-- `unicode.IsSpace`: the Latin-1 spaces ('\t', '\n', '\v', '\f',
'\r', ' ', U+0085, U+00A0) plus the Unicode White_Space code points
(U+1680, U+2000–U+200A, U+2028, U+2029, U+202F, U+205F, U+3000). -/
def goIsSpace (c : Char) : Bool :=
  c == ' ' || c == '\t' || c == '\n' || c == '\r' ||
    c == '\x0b' || c == '\x0c' || c == '\x85' || c == '\xa0' ||
    c == '\u1680' || ('\u2000' ≤ c && c ≤ '\u200A') ||
    c == '\u2028' || c == '\u2029' || c == '\u202F' ||
    c == '\u205F' || c == '\u3000'

/-- `strings.TrimSpace`: drop spaces from both ends. -/
def goTrimSpace (s : String) : String :=
  String.mk (((s.data.dropWhile goIsSpace).reverse.dropWhile goIsSpace).reverse)

/-- The classification prompt built by `AIClient.ModerateText` around
the review text. -/
def moderationPrompt (text : String) : String :=
  "你是一个严格的内容审核员。你的任务是判断给定的评论是否包含不当内容。\n\n不当内容主要分为以下几类：\n- 辱骂：包含人身攻击、侮辱性言论或粗俗语言。\n- 广告：推广产品、服务或网站，包含链接或联系方式。\n- 垃圾信息：无意义的字符、重复文本或与主题无关的内容。\n- 色情：涉及露骨的性描述或性暗示。\n- 暴力：宣扬、描述或鼓励暴力行为。\n- 其他：包含不当内容，如政治敏感话题、宗教敏感话题、种族歧视、性别歧视、地域歧视等。\n\n你的输出必须严格遵循以下格式：\n- 如果评论内容得当，只回答“是”。\n- 如果评论内容不当，回答“否”，然后紧跟一个冒号“：”，并用一句话简要说明理由。\n\n示例 1:\n[评论内容]: \"这个产品真是太棒了，强烈推荐！\"\n你的回答: 是\n\n示例 2:\n[评论内容]: \"想赚钱吗？快来加我VX: 123456\"\n你的回答: 否：包含广告和联系方式。\n\n示例 3:\n[评论内容]: \"方却无法前期亲子课女郎尾气污染\"\n你的回答: 否：包含垃圾信息。\n\n现在，请审核以下评论：\n[评论内容]: \"" ++ text ++ "\""

/-- The `(approved, reason, err)` triple returned by
`AIClient.ModerateText`; `err` is non-`none` exactly when the LLM call
itself failed. -/
structure ModVerdict where
  approved : Bool
  reason : String
  err : Option String
  deriving Repr, DecidableEq

/-- The completion-parsing tail of `AIClient.ModerateText`: prefix "是"
approves; prefix "否" rejects with the remainder whitespace-trimmed
(`strings.TrimSpace`, modelled by `goTrimSpace`) and the prefixes "，",
",", "：", ":" each stripped once in that order, with a fixed fallback
when empty; any other completion returns a rejection-shaped verdict
with the service-error reason and **no** error.  No whitespace is
stripped before the prefix tests. -/
def parseModeration (completion : String) : ModVerdict :=
  if goHasPfx completion "是" then
    { approved := true, reason := "Content approved by AI.", err := none }
  else if goHasPfx completion "否" then
    let reason0 := goTrimSpace (goTrimOnePfx completion "否")
    let reason1 := goTrimOnePfx reason0 "，"
    let reason2 := goTrimOnePfx reason1 ","
    let reason3 := goTrimOnePfx reason2 "："
    let reason4 := goTrimOnePfx reason3 ":"
    let reason := if reason4 = "" then "内容不当，但未提供具体理由。" else reason4
    { approved := false, reason := reason, err := none }
  else
    { approved := false, reason := "AI content moderation service error", err := none }

/-- Sequential stripping of the four leading punctuation marks, as the
spec words it; used to state the amended C5. -/
def stripPunctMarks (s : String) : String :=
  goTrimOnePfx (goTrimOnePfx (goTrimOnePfx (goTrimOnePfx s "，") ",") "：") ":"

/-- `AIClient.ModerateText`: build the prompt, call the completion
endpoint (the oracle `llm`), and parse.  An endpoint failure yields
`(false, "AI content moderation service error", err)`. -/
def moderateText (llm : String → Except String String) (text : String) : ModVerdict :=
  match llm (moderationPrompt text) with
  | Except.error e =>
      { approved := false, reason := "AI content moderation service error", err := some e }
  | Except.ok completion => parseModeration completion

/-- The only field of `biz.AuditReviewParam` the AI-audit path reads
(the operator fields are in the commented-out block of the source). -/
structure AuditReviewParam where
  reviewID : Int
  deriving Repr, DecidableEq

/-- `reviewRepo.AuditReview`: require the review pending (status 10),
run `ModerateText` on its content; on an LLM failure return the error
with the store untouched (the Go code returns the stale review record
alongside the error); otherwise patch
`(status, op_reason, op_remarks, update_by := "Gemini", update_at)` and
re-read.  `now` stands for `time.Now()`. -/
def auditReview (llm : String → Except String String) (db : DB) (now : Nat)
    (param : AuditReviewParam) : DB × Except Err ReviewInfo :=
  match findByReviewID db param.reviewID with
  | none => (db, Except.error (Err.goErr "record not found"))
  | some review =>
    if review.status ≠ 10 then
      (db, Except.error (Err.goErr "只有待审核状态的评论才能进行审核"))
    else
      let verdict := moderateText llm review.content
      match verdict.err with
      | some e => (db, Except.error (Err.moderation e))
      | none =>
        let status : Int := if verdict.approved then 20 else 30
        let remarks := if verdict.approved then "AI审核通过" else "AI审核不通过"
        let db' := updateReviewWhere db param.reviewID (fun r =>
          { r with
            status := status
            opReason := verdict.reason
            opRemarks := remarks
            updateBy := "Gemini"
            updateAt := now })
        let reread : Except Err ReviewInfo :=
          match findByReviewID db' param.reviewID with
          | some updated => Except.ok updated
          | none => Except.error (Err.goErr "record not found")
        (db', reread)

/-- Concrete pending review used for the audit counterexamples. -/
def rvPending : ReviewInfo :=
  { rvExisting with status := 10 }

/-- Database holding just the pending review. -/
def dbPending : DB := { reviews := [rvPending], replies := [], appeals := [] }

/-- A completion endpoint that always answers "是". -/
def llmYes : String → Except String String := fun _ => Except.ok "是"

/-- Concrete approved review coupled to the appeal below. -/
def rvApproved : ReviewInfo :=
  { rvExisting with status := 20 }

/-- Concrete pending appeal on review 1. -/
def apPending : ReviewAppealInfo :=
  { appealID := 11, reviewID := 1, storeID := 3, status := 10
    reason := "libel", content := "c", picInfo := "", videoInfo := ""
    opUser := "", opRemarks := "", updateBy := "", version := 0 }

/-- Database with one approved review and one pending appeal on it. -/
def dbAppeal : DB := { reviews := [rvApproved], replies := [], appeals := [apPending] }

/-- Concrete uphold decision for appeal 11. -/
def pUphold : AuditAppealParam :=
  { appealID := 11, status := 20, opUser := "op1", opReason := "ok", opRemarks := "rm" }

/-- The record produced by the concrete append in the C1 witness. -/
def rvAppendedW : ReviewInfo :=
  { rvExisting with
    content := "ok\n\n[追加评论 2025-01-01 00:00:00]:\nadd"
    score := 4, serviceScore := 4, expressScore := 4
    picInfo := "", videoInfo := "" }

/-- Appeal 11 after the concrete uphold decision. -/
def apUpheldW : ReviewAppealInfo :=
  { apPending with
    status := 20, opUser := "op1", reason := "ok", opRemarks := "rm", updateBy := "op1" }

/-- Review 1 after the concrete uphold decision (hidden). -/
def rvHiddenW : ReviewInfo :=
  { rvApproved with status := 40, updateBy := "op1" }

/-- Review 1 after the concrete approving AI audit. -/
def rvAuditedW : ReviewInfo :=
  { rvPending with
    status := 20, opReason := "Content approved by AI.", opRemarks := "AI审核通过"
    updateBy := "Gemini", updateAt := 1 }

/-- `reviewRepo.SaveReply`: validate — target review exists, not yet
replied (`has_reply==0`), same store — then run the `has_reply` update
and the reply insert in one `Transaction` whose returned error the
source DISCARDS: a failed transaction rolls back (modelled by
`txOk = false`) yet the function still returns `(reply, nil)`. -/
def saveReply (db : DB) (txOk : Bool) (reply : ReviewReplyInfo) :
    DB × Except Err ReviewReplyInfo :=
  match findByReviewID db reply.reviewID with
  | none => (db, Except.error (Err.goErr
      ("评论 (ID: " ++ toString reply.reviewID ++ ") 不存在，无法回复")))
  | some review =>
    if review.hasReply = 1 then
      (db, Except.error (Err.goErr "该评论已回复，不能重复回复"))
    else if review.storeID ≠ reply.storeID then
      (db, Except.error (Err.goErr "商家不能回复其他商家的评论"))
    else
      let db' :=
        if txOk then
          let dbU := updateReviewWhere db reply.reviewID (fun r => { r with hasReply := 1 })
          { dbU with replies := dbU.replies ++ [reply] }
        else db
      (db', Except.ok reply)

/-- The `(review_id, version)` column pairs of the review table; used
to state that no mutation touches `version`. -/
def versMap (db : DB) : List (Int × Int) :=
  db.reviews.map (fun r => (r.reviewID, r.version))

/-- The `(appeal_id, version)` column pairs of the appeal table. -/
def appealVersMap (db : DB) : List (Int × Int) :=
  db.appeals.map (fun a => (a.appealID, a.version))

/-- Decimal digits to a number; `none` on a non-digit. -/
def digitsVal (cs : List Char) : Option Nat :=
  cs.foldl (fun acc c =>
    match acc with
    | none => none
    | some n => if c.isDigit then some (n * 10 + (c.toNat - 48)) else none) (some 0)

/-- `strconv.ParseInt(s, 10, 64)` (and `strconv.Atoi` on a 64-bit
platform): optional sign, decimal digits only, 64-bit range check. -/
def goParseInt64 (s : String) : Option Int :=
  let signDigits : Bool × List Char :=
    match s.data with
    | '-' :: rest => (true, rest)
    | '+' :: rest => (false, rest)
    | rest => (false, rest)
  match signDigits with
  | (neg, ds) =>
    if ds.isEmpty then none
    else
      match digitsVal ds with
      | none => none
      | some n =>
        let v : Int := if neg then -(n : Int) else (n : Int)
        if v < -(2 ^ 63) ∨ 2 ^ 63 - 1 < v then none else some v

/-- `strings.Split(key, ":")`, over the character list. -/
def splitCols (s : String) : List String :=
  (s.data.foldr (fun c acc =>
    match acc with
    | cur :: rest => if c = ':' then [] :: (cur :: rest) else (c :: cur) :: rest
    | [] => [[c]]) [[]]).map String.mk

/-- Outcome of a Redis `GET`: value, `redis.Nil` miss, or failure. -/
inductive CacheGet where
  | hit (data : String)
  | miss
  | err (e : String)
  deriving Repr, DecidableEq

/-- The external collaborators of the paged-read path, as oracles:
Redis `GET`, the ES term search (index, field, value, from, size), and
Redis `SET` with its TTL in seconds (`none` is success). -/
structure Backend where
  cacheGet : String → CacheGet
  esSearch : String → String → String → Int → Int → Except String String
  cacheSet : String → String → Nat → Option String

/-- `reviewRepo.GetDataFromES`: split the key on ":", require at least
four fields, atoi the paging fields, translate the target to an ES
field name, and run the term query. -/
def getDataFromES (b : Backend) (key target : String) : Except String String :=
  match splitCols key with
  | index :: id :: offsetStr :: limitStr :: _ =>
    match goParseInt64 offsetStr with
    | none => Except.error "offset atoi error"
    | some offset =>
      match goParseInt64 limitStr with
      | none => Except.error "limit atoi error"
      | some limit =>
        if target = "store" then b.esSearch index "store_id" id offset limit
        else if target = "user" then b.esSearch index "user_id" id offset limit
        else if target = "status" then b.esSearch index "status" id offset limit
        else Except.error "invalid target"
  | _ => Except.error "key format error"

/-- `reviewRepo.GetDataBySingleFlight` (sequential semantics of the
coalesced computation): cache hit returns the bytes; on `redis.Nil`
fall through to ES and then `return data, r.SetCache(ctx, key, data)` —
so a cache-write failure becomes the returned error (the outer caller
checks the error first and discards the bytes); any other cache error
is returned as-is.  `SetCache` always uses a 60-second TTL. -/
def getDataBySingleFlight (b : Backend) (key target : String) : Except String String :=
  match b.cacheGet key with
  | CacheGet.hit data => Except.ok data
  | CacheGet.miss =>
    match getDataFromES b key target with
    | Except.ok data =>
      match b.cacheSet key data 60 with
      | none => Except.ok data
      | some e => Except.error e
    | Except.error e => Except.error e
  | CacheGet.err e => Except.error e

/-- The cache/coalescing key of `ListReviewByStoreID1`:
`fmt.Sprintf("review:%d:%d:%d", storeID, offset, limit)`. -/
def listReviewByStoreKey (storeID offset limit : Int) : String :=
  "review:" ++ toString storeID ++ ":" ++ toString offset ++ ":" ++ toString limit

/-- The cache/coalescing key of `ListReviewByUserID1`. -/
def listReviewByUserKey (userID offset limit : Int) : String :=
  "review:" ++ toString userID ++ ":" ++ toString offset ++ ":" ++ toString limit

/-- The cache/coalescing key of `listReviewsByStatusFromES`. -/
def listReviewsByStatusKey (status offset limit : Int) : String :=
  "review:" ++ toString status ++ ":" ++ toString offset ++ ":" ++ toString limit

/-- The byte-fetch step of `ListReviewByStoreID1` (the JSON decode of
the returned hits follows it and is target-independent). -/
def listReviewByStoreID1Bytes (b : Backend) (storeID offset limit : Int) :
    Except String String :=
  getDataBySingleFlight b (listReviewByStoreKey storeID offset limit) "store"

/-- The byte-fetch step of `ListReviewByUserID1`. -/
def listReviewByUserID1Bytes (b : Backend) (userID offset limit : Int) :
    Except String String :=
  getDataBySingleFlight b (listReviewByUserKey userID offset limit) "user"

/-- The byte-fetch step of `listReviewsByStatusFromES`. -/
def listReviewsByStatusBytes (b : Backend) (status offset limit : Int) :
    Except String String :=
  getDataBySingleFlight b (listReviewsByStatusKey status offset limit) "status"

/-- JWT claim values as Go's `jwt.MapClaims` exposes them: JSON numbers
are `float64` (IDs are integral, modelled as `Int`), strings, or other
shapes that fail the type assertions. -/
inductive ClaimVal where
  | num (x : Int)
  | str (s : String)
  | other
  deriving Repr, DecidableEq

/-- The request context as the agent sees it: the parsed JWT claim map
when a token is present, `none` when `jwt.FromContext` finds none. -/
structure Ctx where
  claims : Option (List (String × ClaimVal))
  deriving Repr, DecidableEq

/-- Claim-map lookup. -/
def lookupClaim (m : List (String × ClaimVal)) (k : String) : Option ClaimVal :=
  (m.find? (fun kv => kv.fst == k)).map (fun kv => kv.snd)

/-- The authenticated principal (`biz.authedUser`). -/
structure AuthedUser where
  userID : Int
  role : String
  storeID : Int
  deriving Repr, DecidableEq

/-- The three unauthorized errors of `biz.userFromContext`. -/
inductive AuthErr where
  | missingJwtToken
  | userNotFound
  | roleInvalid
  deriving Repr, DecidableEq

/-- `biz.userFromContext`: require a token, a float64 `user_id`, a
string `role`; `store_id` is optional and defaults to 0.  On failure
the Go function returns `(nil, err)`. -/
def userFromContext (ctx : Ctx) : Except AuthErr AuthedUser :=
  match ctx.claims with
  | none => Except.error AuthErr.missingJwtToken
  | some m =>
    match lookupClaim m "user_id" with
    | some (ClaimVal.num uid) =>
      match lookupClaim m "role" with
      | some (ClaimVal.str role) =>
        let storeID : Int :=
          match lookupClaim m "store_id" with
          | some (ClaimVal.num sid) => sid
          | _ => 0
        Except.ok { userID := uid, role := role, storeID := storeID }
      | _ => Except.error AuthErr.roleInvalid
    | _ => Except.error AuthErr.userNotFound

/-- Result of `json.Unmarshal` of the `arguments` JSON into the
per-tool argument structs (unknown fields are ignored and missing
fields default to ""): either the JSON is invalid, or it yields the
two string fields the tools read. -/
structure ToolArgs where
  reviewID : String
  storeID : String
  deriving Repr, DecidableEq

/-- The review-usecase call a tool dispatches to. -/
inductive ToolInvocation where
  | getReview (reviewID : Int)
  | listByStore (storeID : Int) (page size : Int)
  | listByUser (userID : Int) (page size : Int)
  deriving Repr, DecidableEq

/-- Observable outcome of `AgentUsecase.CallTool` up to the dispatch
into the review usecase; `nilPanic` is the runtime nil-pointer
dereference. -/
inductive CallToolOutcome where
  | nilPanic
  | forbidden (msg : String)
  | invalidArguments (msg : String)
  | toolNotFound (msg : String)
  | invoked (call : ToolInvocation)
  deriving Repr, DecidableEq

/-- `AgentUsecase.CallTool`.  The source calls `userFromContext` and
immediately reads `user.Role` without checking the returned error; when
`userFromContext` fails it returns a nil principal, so that read is a
nil-pointer dereference — the `nilPanic` outcome.  On the authenticated
path: role gate, per-tool argument parsing (`InvalidArguments` on JSON
or numeric-parse failure), merchant store RBAC, dispatch
(`.invoked` marks control reaching the review usecase, whose result is
then summarized), unknown tools rejected with `ToolNotFound`. -/
def callTool (ctx : Ctx) (toolName : String) (args : Except Unit ToolArgs) :
    CallToolOutcome :=
  match userFromContext ctx with
  | Except.error _ => CallToolOutcome.nilPanic
  | Except.ok user =>
    if user.role ≠ "customer" ∧ user.role ≠ "merchant" ∧ user.role ≠ "reviewer" then
      CallToolOutcome.forbidden "invalid role"
    else if toolName = "GetReview" then
      match args with
      | Except.error _ => CallToolOutcome.invalidArguments "无法解析GetReview的参数"
      | Except.ok a =>
        match goParseInt64 a.reviewID with
        | none => CallToolOutcome.invalidArguments "reviewID必须是有效的数字"
        | some reviewID => CallToolOutcome.invoked (ToolInvocation.getReview reviewID)
    else if toolName = "ListReviewByStoreID" then
      match args with
      | Except.error _ => CallToolOutcome.invalidArguments "无法解析ListReviewByStoreID的参数"
      | Except.ok a =>
        match goParseInt64 a.storeID with
        | none => CallToolOutcome.invalidArguments "storeID必须是有效的数字"
        | some storeID =>
          if user.role = "merchant" ∧ user.storeID ≠ storeID then
            CallToolOutcome.forbidden "商家只能查询自己店铺的评论"
          else
            CallToolOutcome.invoked (ToolInvocation.listByStore storeID 1 10)
    else if toolName = "ListMyReviews" then
      if user.role ≠ "customer" then
        CallToolOutcome.forbidden "只有顾客才能查询自己的评论"
      else
        CallToolOutcome.invoked (ToolInvocation.listByUser user.userID 1 10)
    else
      CallToolOutcome.toolNotFound ("未找到名为 '" ++ toolName ++ "' 的工具")

/-- Reply targeting review 1 from the owning store 3. -/
def replyW : ReviewReplyInfo :=
  { replyID := 100, reviewID := 1, storeID := 3
    content := "thanks", picInfo := "", videoInfo := "" }

/-- Reply from a different store (4) for the same review. -/
def replyWrongStore : ReviewReplyInfo :=
  { replyW with storeID := 4 }

/-- Database whose single review already carries a reply. -/
def dbReplied : DB :=
  { reviews := [{ rvApproved with hasReply := 1 }], replies := [], appeals := [] }

/-- Backend: cold cache, ES succeeds, cache write fails. -/
def bSetFail : Backend :=
  { cacheGet := fun _ => CacheGet.miss
    esSearch := fun _ _ _ _ _ => Except.ok "HITS"
    cacheSet := fun _ _ _ => some "redis: set failed" }

/-- Backend: cold cache, ES succeeds, cache write succeeds. -/
def bSetOk : Backend :=
  { cacheGet := fun _ => CacheGet.miss
    esSearch := fun _ _ _ _ _ => Except.ok "HITS"
    cacheSet := fun _ _ _ => none }

/-- Backend whose cache holds "CACHED" under every key. -/
def bHit : Backend :=
  { cacheGet := fun _ => CacheGet.hit "CACHED"
    esSearch := fun _ _ _ _ _ => Except.error "unreachable"
    cacheSet := fun _ _ _ => none }

/-- Context of a merchant principal for store 9. -/
def ctxMerchant : Ctx :=
  { claims := some
      [("user_id", ClaimVal.num 5), ("role", ClaimVal.str "merchant"),
        ("store_id", ClaimVal.num 9)] }

/-- The merchant principal `ctxMerchant` yields. -/
def userMerchant : AuthedUser :=
  { userID := 5, role := "merchant", storeID := 9 }

/-- Context with no token at all. -/
def ctxNone : Ctx := { claims := none }

/-- Anatomy of a row after `updateAppealWhere`: it is either the patch
of a matching row or an untouched non-matching row. -/
theorem mem_updateAppealWhere (db : DB) (id : Int)
    (patch : ReviewAppealInfo → ReviewAppealInfo) (a : ReviewAppealInfo)
    (ha : a ∈ (updateAppealWhere db id patch).appeals) :
    (∃ x, x ∈ db.appeals ∧ x.appealID = id ∧ a = patch x) ∨
      (a ∈ db.appeals ∧ a.appealID ≠ id) := by
  simp only [updateAppealWhere, List.mem_map] at ha
  obtain ⟨x, hx, hxa⟩ := ha
  by_cases hb : x.appealID = id
  · left
    exact ⟨x, hx, hb, by rw [← hxa, if_pos hb]⟩
  · right
    rw [if_neg hb] at hxa
    subst hxa
    exact ⟨hx, hb⟩

/-- Anatomy of a row after `updateReviewWhere`. -/
theorem mem_updateReviewWhere (db : DB) (id : Int)
    (patch : ReviewInfo → ReviewInfo) (r : ReviewInfo)
    (hr : r ∈ (updateReviewWhere db id patch).reviews) :
    (∃ x, x ∈ db.reviews ∧ x.reviewID = id ∧ r = patch x) ∨
      (r ∈ db.reviews ∧ r.reviewID ≠ id) := by
  simp only [updateReviewWhere, List.mem_map] at hr
  obtain ⟨x, hx, hxr⟩ := hr
  by_cases hb : x.reviewID = id
  · left
    exact ⟨x, hx, hb, by rw [← hxr, if_pos hb]⟩
  · right
    rw [if_neg hb] at hxr
    subst hxr
    exact ⟨hx, hb⟩

/-- C1 counterexample: a create-review request for order 7, which
already has a review, is rejected by `ReviewUsecase.CreateReview` with
the `ORDER_REVIEWED` error and nothing is appended — refuting the claim
that the operation appends and that `OrderAlreadyReviewed` is never
raised. -/
theorem createReview_existing_order_rejected :
    createReview dbOne "2025-01-01 00:00:00" rvSecond =
      (dbOne, Except.error (Err.orderReviewed "已评价的订单不能重复评价, orderID: 7")) := by
  decide

/-- C1 (amended): at the usecase, a second submission on an order that
already has a review fails with `OrderAlreadyReviewed` and leaves the
store unchanged; the append-with-timestamp policy lives only in the
repo's `SaveReview`, which — when invoked with such an order — updates
the existing record in place (same `review_id`, content extended with
the timestamp header and the new content) and never creates a second
record. -/
theorem createReview_append_policy (db : DB) (now : String) (review : ReviewInfo)
    (ex : ReviewInfo) (hex : (findByOrder db review.orderID).head? = some ex) :
    createReview db now review =
      (db, Except.error (Err.orderReviewed
        ("已评价的订单不能重复评价, orderID: " ++ toString review.orderID))) ∧
    ((saveReview db now review).fst.reviews.length = db.reviews.length ∧
      ∀ res, (saveReview db now review).snd = Except.ok res → res.reviewID = ex.reviewID) := by
  have hne : findByOrder db review.orderID ≠ [] := by
    intro h
    rw [h] at hex
    simp at hex
  have hlen : (findByOrder db review.orderID).length > 0 :=
    List.length_pos.mpr hne
  constructor
  · unfold createReview
    simp [hlen]
  · constructor
    · simp only [saveReview, hex]
      simp [updateReviewWhere]
    · intro res
      simp only [saveReview, hex]
      split
      · rename_i upd hupd
        intro hres
        have h2 : Except.ok (ε := Err) upd = Except.ok res := hres
        cases h2
        simp only [findByReviewID] at hupd
        have hfilter := List.of_mem_filter (List.mem_of_mem_head? (by exact hupd))
        simpa using hfilter
      · intro hres
        have h2 : Except.ok (ε := Err) ex = Except.ok res := hres
        cases h2
        rfl

/-- C1 witness: the amended statement instantiated on the concrete
one-review store. -/
theorem createReview_append_policy_witness :
    createReview dbOne "2025-01-01 00:00:00" rvSecond =
      (dbOne, Except.error (Err.orderReviewed
        ("已评价的订单不能重复评价, orderID: " ++ toString rvSecond.orderID))) ∧
    (saveReview dbOne "2025-01-01 00:00:00" rvSecond).fst.reviews.length =
      dbOne.reviews.length ∧
    rvAppendedW.reviewID = rvExisting.reviewID := by
  have h := createReview_append_policy dbOne "2025-01-01 00:00:00" rvSecond rvExisting
    (by decide)
  exact ⟨h.1, h.2.1, h.2.2 rvAppendedW (by decide)⟩

/-- C2: for an appeal audit on a pending (state-10) appeal, decision 20
sets the appeal to 20 and the coupled review to 40, decision 30 sets
the appeal to 30 and the coupled review to 30 — both committed by the
single transactional state transformation — and any other decision
fails with the invalid-decision error (at the repo and at the usecase)
with the store unchanged. -/
theorem auditAppeal_decisions (db : DB) (p : AuditAppealParam) (ap : ReviewAppealInfo)
    (hfind : findAppealByID db p.appealID = some ap) (hpend : ap.status = 10) :
    (p.status = 20 →
      (∀ a ∈ (auditAppeal db p).fst.appeals, a.appealID = p.appealID → a.status = 20) ∧
      (∀ r ∈ (auditAppeal db p).fst.reviews, r.reviewID = ap.reviewID → r.status = 40)) ∧
    (p.status = 30 →
      (∀ a ∈ (auditAppeal db p).fst.appeals, a.appealID = p.appealID → a.status = 30) ∧
      (∀ r ∈ (auditAppeal db p).fst.reviews, r.reviewID = ap.reviewID → r.status = 30)) ∧
    (p.status ≠ 20 → p.status ≠ 30 →
      auditAppeal db p = (db, Except.error (Err.goErr "无效的申诉审核状态")) ∧
      auditAppealUC db p =
        (db, Except.error (Err.goErr "审核状态无效，只能设置为通过(20)或驳回(30)"))) := by
  refine ⟨?_, ?_, ?_⟩
  · intro h20
    constructor
    · intro a ha hid
      simp [auditAppeal, hfind, hpend, h20, updateReviewWhere, updateAppealWhere] at ha
      obtain ⟨x, hx, hxa⟩ := ha
      by_cases hb : x.appealID = p.appealID
      · rw [if_pos hb] at hxa
        rw [← hxa]
      · rw [if_neg hb] at hxa
        rw [← hxa] at hid
        exact absurd hid hb
    · intro r hr hid
      simp [auditAppeal, hfind, hpend, h20, updateReviewWhere, updateAppealWhere] at hr
      obtain ⟨x, hx, hxr⟩ := hr
      by_cases hb : x.reviewID = ap.reviewID
      · rw [if_pos hb] at hxr
        rw [← hxr]
      · rw [if_neg hb] at hxr
        rw [← hxr] at hid
        exact absurd hid hb
  · intro h30
    constructor
    · intro a ha hid
      simp [auditAppeal, hfind, hpend, h30, updateReviewWhere, updateAppealWhere] at ha
      obtain ⟨x, hx, hxa⟩ := ha
      by_cases hb : x.appealID = p.appealID
      · rw [if_pos hb] at hxa
        rw [← hxa]
      · rw [if_neg hb] at hxa
        rw [← hxa] at hid
        exact absurd hid hb
    · intro r hr hid
      simp [auditAppeal, hfind, hpend, h30, updateReviewWhere, updateAppealWhere] at hr
      obtain ⟨x, hx, hxr⟩ := hr
      by_cases hb : x.reviewID = ap.reviewID
      · rw [if_pos hb] at hxr
        rw [← hxr]
      · rw [if_neg hb] at hxr
        rw [← hxr] at hid
        exact absurd hid hb
  · intro h20 h30
    constructor
    · simp [auditAppeal, hfind, hpend, h20, h30]
    · simp [auditAppealUC, h20, h30]

/-- C2 witness: the uphold decision on the concrete pending appeal
sets the appeal row to 20 and hides the coupled review (status 40). -/
theorem auditAppeal_decisions_witness :
    apUpheldW.status = 20 ∧ rvHiddenW.status = 40 := by
  have h := auditAppeal_decisions dbAppeal pUphold apPending (by decide) (by decide)
  have h20 := h.1 (by decide)
  exact ⟨h20.1 apUpheldW (by decide) (by decide), h20.2 rvHiddenW (by decide) (by decide)⟩

/-- C4 counterexample: on the concrete approving AI audit, the review
is updated with `update_by = "Gemini"`, not `"AI"` as claimed. -/
theorem auditReview_updateBy_counterexample :
    (auditReview llmYes dbPending 1 { reviewID := 1 }).snd = Except.ok rvAuditedW ∧
    (auditReview llmYes dbPending 1 { reviewID := 1 }).fst.reviews.map
      (fun r => r.updateBy) = ["Gemini"] ∧
    ("Gemini" : String) ≠ "AI" := by
  refine ⟨by decide, by decide, by decide⟩

/-- C4 (amended): AI audit of a pending review: on an LLM failure the
store is unchanged (the review stays at 10) and the error is returned;
otherwise the review is set to 20 on approval and 30 on rejection, with
`op_reason` the moderator's reason, the AI remark, and
`update_by = "Gemini"`. -/
theorem auditReview_ai_audit (llm : String → Except String String) (db : DB) (now : Nat)
    (p : AuditReviewParam) (review : ReviewInfo)
    (hfind : findByReviewID db p.reviewID = some review) (hpend : review.status = 10) :
    (∀ e, (moderateText llm review.content).err = some e →
      auditReview llm db now p = (db, Except.error (Err.moderation e))) ∧
    ((moderateText llm review.content).err = none →
      ∀ r ∈ (auditReview llm db now p).fst.reviews, r.reviewID = p.reviewID →
        r.status = (if (moderateText llm review.content).approved then (20 : Int) else 30) ∧
        r.updateBy = "Gemini" ∧
        r.opReason = (moderateText llm review.content).reason ∧
        r.opRemarks =
          (if (moderateText llm review.content).approved then "AI审核通过" else "AI审核不通过")) := by
  constructor
  · intro e herr
    simp [auditReview, hfind, hpend, herr]
  · intro herr r hr hid
    simp [auditReview, hfind, hpend, herr, updateReviewWhere] at hr
    obtain ⟨x, hx, hxr⟩ := hr
    by_cases hb : x.reviewID = p.reviewID
    · rw [if_pos hb] at hxr
      rw [← hxr]
      exact ⟨rfl, rfl, rfl, rfl⟩
    · rw [if_neg hb] at hxr
      rw [← hxr] at hid
      exact absurd hid hb

/-- C4 witness: the approving audit on the concrete pending review. -/
theorem auditReview_ai_audit_witness :
    rvAuditedW.status =
      (if (moderateText llmYes rvPending.content).approved then (20 : Int) else 30) ∧
    rvAuditedW.updateBy = "Gemini" ∧
    rvAuditedW.opReason = (moderateText llmYes rvPending.content).reason ∧
    rvAuditedW.opRemarks =
      (if (moderateText llmYes rvPending.content).approved then "AI审核通过" else "AI审核不通过") := by
  have h := auditReview_ai_audit llmYes dbPending 1 { reviewID := 1 } rvPending
    (by decide) (by decide)
  exact h.2 (by decide) rvAuditedW (by decide) (by decide)

/-- C5 counterexample: the completion "maybe" (no leading 是/否) yields
an error-free rejection verdict — the claim demands a
`ModerationIndeterminate` failure instead of a verdict; and the
completion " 是" (leading whitespace) is not approved — the claim's
whitespace stripping does not happen. -/
theorem parseModeration_counterexample :
    parseModeration "maybe" =
      { approved := false, reason := "AI content moderation service error", err := none } ∧
    parseModeration " 是" =
      { approved := false, reason := "AI content moderation service error", err := none } := by
  decide

/-- C5 (amended): no whitespace stripping precedes the prefix tests; a
completion with prefix "是" approves with reason "Content approved by
AI."; prefix "否" rejects with the remainder whitespace-trimmed and the
leading marks "，", ",", "：", ":" each stripped once in that order,
with the fixed fallback when empty; any other completion returns an
error-free rejection with the service-error reason (never a
`ModerationIndeterminate` failure). -/
theorem parseModeration_cases (completion : String) :
    (goHasPfx completion "是" = true →
      parseModeration completion =
        { approved := true, reason := "Content approved by AI.", err := none }) ∧
    (¬ goHasPfx completion "是" = true → goHasPfx completion "否" = true →
      parseModeration completion =
        { approved := false
          reason :=
            (if stripPunctMarks (goTrimSpace (goTrimOnePfx completion "否")) = "" then
              "内容不当，但未提供具体理由。"
            else stripPunctMarks (goTrimSpace (goTrimOnePfx completion "否")))
          err := none }) ∧
    (¬ goHasPfx completion "是" = true → ¬ goHasPfx completion "否" = true →
      parseModeration completion =
        { approved := false, reason := "AI content moderation service error", err := none }) := by
  refine ⟨?_, ?_, ?_⟩
  · intro h1
    unfold parseModeration
    rw [if_pos h1]
  · intro h1 h2
    unfold parseModeration stripPunctMarks
    rw [if_neg h1, if_pos h2]
  · intro h1 h2
    unfold parseModeration
    rw [if_neg h1, if_neg h2]

/-- C5 witness: a concrete rejection completion, and a completion
whose 否-remainder is only an ideographic space (U+3000) — trimmed away
by `strings.TrimSpace`, so the fixed fallback reason is used. -/
theorem parseModeration_cases_witness :
    parseModeration "否：广告" = { approved := false, reason := "广告", err := none } ∧
    parseModeration "否　" =
      { approved := false, reason := "内容不当，但未提供具体理由。", err := none } := by
  have h1 := (parseModeration_cases "否：广告").2.1 (by decide) (by decide)
  have h2 := (parseModeration_cases "否　").2.1 (by decide) (by decide)
  rw [h1, h2]
  exact ⟨by decide, by decide⟩

/-- C3 counterexample: the append mutation on the concrete store leaves
the mutated record's version at 5 — it does not strictly increase, and
no update in the data layer reads or writes the version column. -/
theorem version_counterexample :
    versMap dbOne = [(1, 5)] ∧
    versMap (saveReview dbOne "2025-01-01 00:00:00" rvSecond).fst = [(1, 5)] ∧
    ((saveReview dbOne "2025-01-01 00:00:00" rvSecond).fst.reviews.any
      (fun r => decide (5 < r.version))) = false := by
  decide

/-- C3 (amended): no mutating operation of the data layer touches the
`version` column: create-append, AI audit, reply, and appeal audit all
preserve every record's `(id, version)` pair, their update predicates
are id-equality only, and no version-mismatch `Conflict` exists. -/
theorem mutations_ignore_version (db : DB) (now : String) (nowT : Nat)
    (rv ex : ReviewInfo) (hex : (findByOrder db rv.orderID).head? = some ex)
    (llm : String → Except String String) (p : AuditReviewParam)
    (txOk : Bool) (reply : ReviewReplyInfo) (ap : AuditAppealParam) :
    versMap (saveReview db now rv).fst = versMap db ∧
    versMap (auditReview llm db nowT p).fst = versMap db ∧
    versMap (saveReply db txOk reply).fst = versMap db ∧
    versMap (auditAppeal db ap).fst = versMap db ∧
    appealVersMap (auditAppeal db ap).fst = appealVersMap db := by
  refine ⟨?_, ?_, ?_, ?_, ?_⟩
  · simp only [saveReview, hex]
    simp [versMap, updateReviewWhere]
    intro a ha
    by_cases hb : a.reviewID = ex.reviewID <;> simp [hb]
  · rcases hf : findByReviewID db p.reviewID with _ | review
    · simp [auditReview, hf]
    · by_cases hs : review.status = 10
      · rcases he : (moderateText llm review.content).err with _ | e
        · simp only [auditReview, hf, hs]
          simp only [he]
          simp [versMap, updateReviewWhere]
          intro a ha
          by_cases hb : a.reviewID = p.reviewID <;> simp [hb]
        · simp [auditReview, hf, hs, he]
      · simp [auditReview, hf, hs]
  · rcases hf : findByReviewID db reply.reviewID with _ | review
    · simp [saveReply, hf]
    · by_cases h1 : review.hasReply = 1
      · simp [saveReply, hf, h1]
      · by_cases h2 : review.storeID = reply.storeID
        · cases txOk with
          | false => simp [saveReply, hf, h1, h2]
          | true =>
            simp only [saveReply, hf, h1, h2]
            simp [versMap, updateReviewWhere]
            intro a ha
            by_cases hb : a.reviewID = reply.reviewID <;> simp [hb]
        · simp [saveReply, hf, h1, h2]
  · rcases hf : findAppealByID db ap.appealID with _ | appeal
    · simp [auditAppeal, hf]
    · by_cases hs : appeal.status = 10
      · by_cases hd : ap.status = 20 ∨ ap.status = 30
        · simp only [auditAppeal, hf, hs, hd]
          simp [versMap, updateReviewWhere, updateAppealWhere]
          intro a ha
          by_cases hb : a.reviewID = appeal.reviewID <;> simp [hb]
        · simp [auditAppeal, hf, hs, hd]
      · simp [auditAppeal, hf, hs]
  · rcases hf : findAppealByID db ap.appealID with _ | appeal
    · simp [auditAppeal, hf]
    · by_cases hs : appeal.status = 10
      · by_cases hd : ap.status = 20 ∨ ap.status = 30
        · simp only [auditAppeal, hf, hs, hd]
          simp [appealVersMap, updateReviewWhere, updateAppealWhere]
          intro a ha
          by_cases hb : a.appealID = ap.appealID <;> simp [hb]
        · simp [auditAppeal, hf, hs, hd]
      · simp [auditAppeal, hf, hs]

/-- C3 witness: the amended statement at concrete inputs. -/
theorem mutations_ignore_version_witness :
    versMap (saveReview dbOne "2025-01-01 00:00:00" rvSecond).fst = versMap dbOne ∧
    versMap (auditReview llmYes dbOne 1 { reviewID := 1 }).fst = versMap dbOne ∧
    versMap (saveReply dbOne true replyW).fst = versMap dbOne ∧
    versMap (auditAppeal dbOne pUphold).fst = versMap dbOne ∧
    appealVersMap (auditAppeal dbOne pUphold).fst = appealVersMap dbOne :=
  mutations_ignore_version dbOne "2025-01-01 00:00:00" 1 rvSecond rvExisting
    (by decide) llmYes { reviewID := 1 } true replyW pUphold

/-- C6: `SaveReply` checks its preconditions (absent review, duplicate
reply, store mismatch each abort with the review unchanged) but
DISCARDS the transaction's returned error: with the transactional write
failing (`txOk = false`), nothing is persisted yet the call still
returns the reply with a nil error — the write failure never surfaces,
against the claim's propagation policy.  The happy path does set
`has_reply` and insert the reply. -/
theorem saveReply_swallows_tx_failure :
    saveReply dbOne false replyW = (dbOne, Except.ok replyW) ∧
    saveReply { reviews := [], replies := [], appeals := [] } true replyW =
      ({ reviews := [], replies := [], appeals := [] },
        Except.error (Err.goErr "评论 (ID: 1) 不存在，无法回复")) ∧
    saveReply dbReplied true replyW =
      (dbReplied, Except.error (Err.goErr "该评论已回复，不能重复回复")) ∧
    saveReply dbOne true replyWrongStore =
      (dbOne, Except.error (Err.goErr "商家不能回复其他商家的评论")) ∧
    (saveReply dbOne true replyW).fst.replies = [replyW] ∧
    (saveReply dbOne true replyW).fst.reviews.map (fun r => r.hasReply) = [1] := by
  decide

/-- C7 counterexample: on a cold cache with a successful index read and
a failing cache write, the paged read returns the cache-write error and
not the bytes — the write is not best-effort. -/
theorem getData_cacheWriteError_counterexample :
    getDataBySingleFlight bSetFail "review:3:0:10" "store" =
      Except.error "redis: set failed" ∧
    getDataFromES bSetFail "review:3:0:10" "store" = Except.ok "HITS" := by
  decide

/-- C7 (amended): on a cache miss with a successful index read, the
bytes are written to the cache with the 60-second TTL, and the call
returns the bytes only when that write succeeds; a cache-write error is
returned to the caller instead of the bytes. -/
theorem getData_cache_write_surfaces (b : Backend) (key target data : String)
    (hmiss : b.cacheGet key = CacheGet.miss)
    (hes : getDataFromES b key target = Except.ok data) :
    getDataBySingleFlight b key target =
      (match b.cacheSet key data 60 with
        | none => Except.ok data
        | some e => Except.error e) := by
  simp [getDataBySingleFlight, hmiss, hes]

/-- C7 witness: the successful-write instance returns the bytes. -/
theorem getData_cache_write_surfaces_witness :
    getDataBySingleFlight bSetOk "review:3:0:10" "store" = Except.ok "HITS" := by
  have h := getData_cache_write_surfaces bSetOk "review:3:0:10" "store" "HITS" rfl (by decide)
  rw [h]
  rfl

/-- C8: for a merchant principal, `ListReviewByStoreID` is forbidden
exactly when the requested store differs from the principal's store and
dispatches when they agree; unknown tools fail with `ToolNotFound`,
unparseable argument JSON and non-numeric IDs with `InvalidArguments`. -/
theorem callTool_rbac (ctx : Ctx) (user : AuthedUser) (a : ToolArgs)
    (huser : userFromContext ctx = Except.ok user) (hrole : user.role = "merchant") :
    (∀ n, goParseInt64 a.storeID = some n → user.storeID ≠ n →
      callTool ctx "ListReviewByStoreID" (Except.ok a) =
        CallToolOutcome.forbidden "商家只能查询自己店铺的评论") ∧
    (∀ n, goParseInt64 a.storeID = some n → user.storeID = n →
      callTool ctx "ListReviewByStoreID" (Except.ok a) =
        CallToolOutcome.invoked (ToolInvocation.listByStore n 1 10)) ∧
    (∀ t args2, t ≠ "GetReview" → t ≠ "ListReviewByStoreID" → t ≠ "ListMyReviews" →
      callTool ctx t args2 =
        CallToolOutcome.toolNotFound ("未找到名为 '" ++ t ++ "' 的工具")) ∧
    callTool ctx "ListReviewByStoreID" (Except.error ()) =
      CallToolOutcome.invalidArguments "无法解析ListReviewByStoreID的参数" ∧
    (goParseInt64 a.storeID = none →
      callTool ctx "ListReviewByStoreID" (Except.ok a) =
        CallToolOutcome.invalidArguments "storeID必须是有效的数字") := by
  refine ⟨?_, ?_, ?_, ?_, ?_⟩
  · intro n hn hne
    simp [callTool, huser, hrole, hn, hne]
  · intro n hn heq
    simp [callTool, huser, hrole, hn, heq]
  · intro t args2 ht1 ht2 ht3
    simp [callTool, huser, hrole, ht1, ht2, ht3]
  · simp [callTool, huser, hrole]
  · intro hn
    simp [callTool, huser, hrole, hn]

/-- C8 witness: the merchant for store 9 asking for store 42 is
forbidden, for store 9 succeeds; unknown tool, bad JSON and a
non-numeric ID produce their errors. -/
theorem callTool_rbac_witness :
    callTool ctxMerchant "ListReviewByStoreID"
        (Except.ok { reviewID := "", storeID := "42" }) =
      CallToolOutcome.forbidden "商家只能查询自己店铺的评论" ∧
    callTool ctxMerchant "ListReviewByStoreID"
        (Except.ok { reviewID := "", storeID := "9" }) =
      CallToolOutcome.invoked (ToolInvocation.listByStore 9 1 10) ∧
    callTool ctxMerchant "BogusTool" (Except.error ()) =
      CallToolOutcome.toolNotFound "未找到名为 'BogusTool' 的工具" ∧
    callTool ctxMerchant "ListReviewByStoreID" (Except.error ()) =
      CallToolOutcome.invalidArguments "无法解析ListReviewByStoreID的参数" ∧
    callTool ctxMerchant "ListReviewByStoreID"
        (Except.ok { reviewID := "", storeID := "x" }) =
      CallToolOutcome.invalidArguments "storeID必须是有效的数字" := by
  have h42 := callTool_rbac ctxMerchant userMerchant
    { reviewID := "", storeID := "42" } (by decide) rfl
  have h9 := callTool_rbac ctxMerchant userMerchant
    { reviewID := "", storeID := "9" } (by decide) rfl
  have hx := callTool_rbac ctxMerchant userMerchant
    { reviewID := "", storeID := "x" } (by decide) rfl
  exact ⟨h42.1 42 (by decide) (by decide),
    h9.2.1 9 (by decide) (by decide),
    h42.2.2.1 "BogusTool" (Except.error ()) (by decide) (by decide) (by decide),
    h42.2.2.2.1,
    hx.2.2.2.2 (by decide)⟩

/-- C9: when `userFromContext` fails (no valid authenticated user),
`CallTool` dereferences the nil principal — the outcome is the runtime
panic, never an authentication or authorization error. -/
theorem callTool_nil_deref (ctx : Ctx) (toolName : String) (args : Except Unit ToolArgs)
    (e : AuthErr) (herr : userFromContext ctx = Except.error e) :
    callTool ctx toolName args = CallToolOutcome.nilPanic := by
  simp [callTool, herr]

/-- C9 witness: a context with no token panics. -/
theorem callTool_nil_deref_witness :
    callTool ctxNone "GetReview" (Except.error ()) = CallToolOutcome.nilPanic :=
  callTool_nil_deref ctxNone "GetReview" (Except.error ()) AuthErr.missingJwtToken rfl

/-- C10: the store-list, user-list and status-list paged reads compute
the identical cache/coalescing key "review:n:o:l" (the target dimension
is absent), so bytes cached under that key for one target are returned
verbatim to callers of the other targets. -/
theorem list_cache_key_shared (n offset limit : Int) :
    listReviewByStoreKey n offset limit = listReviewByUserKey n offset limit ∧
    listReviewByUserKey n offset limit = listReviewsByStatusKey n offset limit ∧
    ∀ b data, b.cacheGet (listReviewByStoreKey n offset limit) = CacheGet.hit data →
      listReviewByStoreID1Bytes b n offset limit = Except.ok data ∧
      listReviewByUserID1Bytes b n offset limit = Except.ok data ∧
      listReviewsByStatusBytes b n offset limit = Except.ok data := by
  refine ⟨rfl, rfl, ?_⟩
  intro b data hhit
  simp only [listReviewByStoreKey] at hhit
  refine ⟨?_, ?_, ?_⟩ <;>
    simp [listReviewByStoreID1Bytes, listReviewByUserID1Bytes, listReviewsByStatusBytes,
      listReviewByStoreKey, listReviewByUserKey, listReviewsByStatusKey,
      getDataBySingleFlight, hhit]

/-- C10 witness: bytes cached under "review:9:1:10" are served to all
three targets. -/
theorem list_cache_key_shared_witness :
    listReviewByStoreID1Bytes bHit 9 1 10 = Except.ok "CACHED" ∧
    listReviewByUserID1Bytes bHit 9 1 10 = Except.ok "CACHED" ∧
    listReviewsByStatusBytes bHit 9 1 10 = Except.ok "CACHED" :=
  (list_cache_key_shared 9 1 10).2.2 bHit "CACHED" rfl

end ReviewSystem
